import Mathlib

/-!
# Verification of the platmap_pro GeoJSON-to-SVG conversion pipeline

A shallow embedding, over `ℚ`, of the conversion pipeline in
`src/converters/geojson_to_svg.py`, the coordinate transformer in
`src/utils/transformations.py`, and the marker-editing operations in
`src/gui/svg_editor.py`, together with theorems settling the spec claims.

Modelling conventions:
* Python floats are modelled by `ℚ` (the geometry here is pure affine
  arithmetic; no rounding behaviour is claim-relevant).
* `xml.etree.ElementTree` elements are modelled by the `XML` tree below
  (tag, attribute association list in insertion order, optional text,
  children in insertion order).
* Python's `str(...)` rendering of a number is modelled by `ratStr`
  (the claims compare document structure and cross-run equality, never
  the decimal formatting of a coordinate).
* Calls into external geometry libraries (shapely / geopandas) are
  modelled at their interface: `simplify` acts on an exterior ring
  (identity on our abstract rings, since no claim concerns simplified
  coordinates), `centroid` is carried as data on each record, and the
  editor's `Polygon.contains` point-in-polygon test is a function
  parameter.
-/

namespace Platmap

/-- An XML element as built by `xml.etree.ElementTree`: a tag, the
attribute dictionary (insertion-ordered key/value pairs), the optional
`.text` content, and the list of child elements. -/
inductive XML where
  | elem (tag : String) (attrs : List (String × String)) (text : Option String)
      (children : List XML)

/-- Placeholder element, used only as the default of list lookups. -/
def xmlDefault : XML := .elem "" [] none []

/-- The child list of an element. -/
def XML.children : XML → List XML
  | .elem _ _ _ cs => cs

/-- The `.text` content of an element. -/
def XML.textContent : XML → Option String
  | .elem _ _ t _ => t

/-- Look up an attribute value on an element. -/
def XML.attr (x : XML) (k : String) : Option String :=
  match x with
  | .elem _ attrs _ _ => List.lookup k attrs

/-- Python's `str(...)` on a numeric value, modelled on `ℚ`. -/
def ratStr (q : ℚ) : String := toString q

/-! ## `src/utils/transformations.py` -/

/-- `transform_coords(x, y, minx, miny, scale, maxy, x_padding, y_padding)`:
scale, center and Y-flip one planar coordinate into canvas space.  (As in
the source, `miny` is accepted but unused.) -/
def transform_coords (x y minx _miny scale maxy x_padding y_padding : ℚ) : ℚ × ℚ :=
  ((x - minx) * scale + x_padding, (maxy - y) * scale + y_padding)

/-! ## Bounds fitting (`geojson_to_svg`, lines 34–44) -/

/-- One step of the running bounding box over points:
`(min-x, min-y, max-x, max-y)`. -/
def boundsStep (b : ℚ × ℚ × ℚ × ℚ) (q : ℚ × ℚ) : ℚ × ℚ × ℚ × ℚ :=
  (min b.1 q.1, min b.2.1 q.2, max b.2.2.1 q.1, max b.2.2.2 q.2)

/-- The combined bounding box `(minx, miny, maxx, maxy)` of a coordinate
list, modelling `GeoDataFrame.total_bounds` over the concatenated layers
(on an empty coordinate list the Python pipeline would produce NaNs; we
return zeros, a case outside every claim). -/
def total_bounds : List (ℚ × ℚ) → ℚ × ℚ × ℚ × ℚ
  | [] => (0, 0, 0, 0)
  | p :: rest => rest.foldl boundsStep (p.1, p.2, p.1, p.2)

/-- The fitted affine transform shared by every rendering step. -/
structure Fit where
  minx : ℚ
  miny : ℚ
  maxy : ℚ
  scale : ℚ
  x_padding : ℚ
  y_padding : ℚ
deriving Repr

/-- Lines 34–44 of `geojson_to_svg`: uniform contain-fit scale and
symmetric per-axis padding from the combined bounds. -/
def fit_of (coords : List (ℚ × ℚ)) (canvas_width canvas_height : ℚ) : Fit :=
  let b := total_bounds coords
  let geom_width := b.2.2.1 - b.1
  let geom_height := b.2.2.2 - b.2.1
  let scale_x := canvas_width / geom_width
  let scale_y := canvas_height / geom_height
  let scale := min scale_x scale_y
  { minx := b.1, miny := b.2.1, maxy := b.2.2.2, scale := scale,
    x_padding := (canvas_width - geom_width * scale) / 2,
    y_padding := (canvas_height - geom_height * scale) / 2 }

/-! ## Geometry records -/

/-- A planar geometry as delivered by the external geometry-data source:
empty, a polygon (its exterior ring's coordinates, closing point
included), or a multi-polygon (one exterior ring per part).  Interior
rings are never consulted by the source and are not modelled. -/
inductive Geometry where
  | empty
  | polygon (ext : List (ℚ × ℚ))
  | multiPolygon (parts : List (List (ℚ × ℚ)))

/-- All coordinates of a geometry (used for the combined bounds). -/
def Geometry.coords : Geometry → List (ℚ × ℚ)
  | .empty => []
  | .polygon ext => ext
  | .multiPolygon parts => parts.flatten

/-- One lot record: the tabular attributes (raw strings, as read from the
attribute columns `excel_*`) plus its geometry and the geometry's
centroid (computed by the external shapely kernel, carried as data). -/
structure LotRow where
  community : String
  lotJob : String
  legalLot : String
  plan : String
  lotPremium : String
  soldStatus : String
  constStatus : String
  geometry : Geometry
  centroid : ℚ × ℚ

/-! ## Path emission (`write_polygon`, `process_geometry`, `add_layer_to_svg`) -/

/-- `write_polygon`: project every exterior-ring coordinate (the same
affine formula as `transform_coords`, inlined in the source) and emit one
closed path with the layer style. -/
def write_polygon (fit : Fit) (ext : List (ℚ × ℚ)) (fill : String) : XML :=
  let coords := String.intercalate " " (ext.map fun p =>
    ratStr ((p.1 - fit.minx) * fit.scale + fit.x_padding) ++ "," ++
    ratStr ((fit.maxy - p.2) * fit.scale + fit.y_padding))
  XML.elem "path"
    [("d", "M " ++ coords ++ " Z"), ("fill", fill), ("stroke", "black"),
     ("stroke-width", "1")] none []

/-- `process_geometry`: a null/empty geometry is a no-op; a polygon emits
one path; a multi-polygon one path per part.  The shapely
`simplify(tolerance, preserve_topology=True)` call is an external
library call, modelled as the identity on the abstract ring (no claim
concerns the simplified coordinates). -/
def process_geometry (fit : Fit) (g : Geometry) (fill : String) : List XML :=
  match g with
  | .empty => []
  | .polygon ext => [write_polygon fit ext fill]
  | .multiPolygon parts => parts.map fun p => write_polygon fit p fill

/-- `add_layer_to_svg`: one styled group holding every geometry of a
background layer. -/
def add_layer_to_svg (fit : Fit) (geoms : List Geometry)
    (layer_id layer_class fill : String) : XML :=
  XML.elem "g" [("id", layer_id), ("class", layer_class)] none
    ((geoms.map fun g => process_geometry fit g fill).flatten)

/-! ## Lot annotation (`process_lots`) -/

/-- Python `str.isdigit()` on the ASCII strings appearing here: true iff
the string is non-empty and every character is a decimal digit.  (Python
additionally accepts other Unicode digit characters; the repository's
lot-job values are ASCII.) -/
def pyIsDigit (s : String) : Bool := !s.isEmpty && s.data.all Char.isDigit

/-- Python `str.strip()`: drop leading and trailing whitespace.
(Implemented structurally over the character list; Python also strips a
few additional Unicode space characters, which do not occur in these
attribute values.) -/
def pyStrip (s : String) : String :=
  String.mk (((s.data.dropWhile Char.isWhitespace).reverse.dropWhile
    Char.isWhitespace).reverse)

/-- The fixed six-colour plan palette (line 168). -/
def plan_colors : List String :=
  ["#6C889E", "#5D5249", "#B9AE5A", "#123449", "#076587", "#894747"]

/-- The default fill colour for unassigned/empty plans (line 170). -/
def default_color : String := "#DBCDAE"

/-- The neutral gray used for the unused bucket (line 292). -/
def unused_fill : String := "#d3d3d3"

/-- `plan_colors[n % len(plan_colors)]`. -/
def planColorAt (n : Nat) : String :=
  plan_colors.get ⟨n % 6, Nat.mod_lt _ (by decide)⟩

/-- Lines 193–198: resolve the fill colour for a plan name, assigning the
next palette colour (cycling modulo the palette size) on first sight of a
non-empty plan when colorization is on; the default colour otherwise.
Returns the updated plan-colour map and the resolved fill. -/
def resolveFill (colorize : Bool) (m : List (String × String)) (plan : String) :
    List (String × String) × String :=
  if colorize then
    let m2 := if (List.lookup plan m).isNone && plan != "" then
        m ++ [(plan, planColorAt m.length)]
      else m
    (m2, (List.lookup plan m2).getD default_color)
  else (m, default_color)

/-- Lines 214–226: the construction-status circle (offset `(+5, 0)` from
the anchor) with its fixed `"300"` label. -/
def const_status_group (cx cy : ℚ) : XML :=
  XML.elem "g" [("class", "constStatus")] none
    [XML.elem "circle"
       [("fill", "#444445"), ("cx", ratStr (cx + 5)), ("cy", ratStr cy), ("r", "4")]
       none [],
     XML.elem "text"
       [("transform", "matrix(1 0 0 1 " ++ ratStr (cx + 2.6) ++ " " ++ ratStr (cy + 1.2) ++ ")"),
        ("fill", "#FFFFFF"), ("font-family", "\x27ArialMT\x27"), ("font-size", "4px")]
       (some "300") []]

/-- Lines 229–246: the premium star (circle offset `(0, -5)`, star
polygon, fixed `"10k"` label). -/
def lot_premium_group (cx cy : ℚ) : XML :=
  XML.elem "g" [("class", "lotPremium")] none
    [XML.elem "circle"
       [("fill", "#FFFFFF"), ("cx", ratStr cx), ("cy", ratStr (cy - 5)), ("r", "3.8")]
       none [],
     XML.elem "polygon"
       [("points",
         ratStr (cx + 1.2) ++ "," ++ ratStr (cy - 6.7) ++ " " ++
         ratStr (cx + 4) ++ "," ++ ratStr (cy - 6.3) ++ " " ++
         ratStr (cx + 2) ++ "," ++ ratStr (cy - 4.3) ++ " " ++
         ratStr (cx + 2.5) ++ "," ++ ratStr (cy - 1.6) ++ " " ++
         ratStr cx ++ "," ++ ratStr (cy - 2.9) ++ " " ++
         ratStr (cx - 2.4) ++ "," ++ ratStr (cy - 1.6) ++ " " ++
         ratStr (cx - 2) ++ "," ++ ratStr (cy - 4.3) ++ " " ++
         ratStr (cx - 3.9) ++ "," ++ ratStr (cy - 6.2) ++ " " ++
         ratStr (cx - 1.2) ++ "," ++ ratStr (cy - 6.6) ++ " " ++
         ratStr cx ++ "," ++ ratStr (cy - 9.1))] none [],
     XML.elem "text"
       [("transform", "matrix(1 0 0 1 " ++ ratStr (cx - 1.9) ++ " " ++ ratStr (cy - 3.8) ++ ")"),
        ("fill", "#FFFFFF"), ("font-family", "\x27ArialMT\x27"), ("font-size", "2.3px")]
       (some "10k") []]

/-- Lines 260–264: the embedded house glyph path data. -/
def house_icon_d (cx cy : ℚ) : String :=
  "M" ++ ratStr (cx - 7.5) ++ "," ++ ratStr cy ++
  "l2.5-2.2l2.5,2.2c0,0,0.1,0,0.1,0c0,0,0.1,0,0.1-0.1c0.1-0.1,0.1-0.2,0-0.2l-2.6-2.3c-0.1-0.1-0.2-0.1-0.2,0 " ++
  "l-0.9,0.8v-0.3c0-0.2-0.2-0.3-0.3-0.3c-0.2,0-0.3,0.2-0.3,0.3v0.9l-1,0.9c-0.1,0.1-0.1,0.2,0,0.2 " ++
  "C" ++ ratStr (cx - 7.7) ++ "," ++ ratStr (cy + 0.1) ++ "," ++ ratStr (cx - 7.6) ++ "," ++
  ratStr (cy + 0.1) ++ "," ++ ratStr (cx - 7.5) ++ "," ++ ratStr cy ++
  "z M" ++ ratStr (cx - 5.7) ++ "," ++ ratStr (cy + 0.8) ++
  "h1.4v1.7h1c0.2,0,0.3-0.2,0.3-0.3V" ++ ratStr (cy + 0.5) ++ " " ++
  "c0-0.1,0-0.2-0.1-0.3l-1.7-1.4c-0.1-0.1-0.1-0.1-0.2-0.1s-0.2,0-0.2,0.1l-1.7,1.4c-0.1,0.1-0.1,0.2-0.1,0.3v1.7 " ++
  "c0,0.2,0.2,0.3,0.3,0.3h1V" ++ ratStr (cy + 0.8) ++ "z"

/-- Lines 249–266: the sold-status circle (offset `(-5, 0)`) containing
the house icon. -/
def sold_status_group (cx cy : ℚ) : XML :=
  XML.elem "g" [("class", "soldStatus")] none
    [XML.elem "circle"
       [("fill", "#FFFFFF"), ("cx", ratStr (cx - 5)), ("cy", ratStr cy), ("r", "4")]
       none [],
     XML.elem "g" [] none
       [XML.elem "path" [("d", house_icon_d cx cy), ("fill", "#000000")] none []]]

/-- Lines 212–266: the per-lot status-marker set, anchored at the
projected centroid `(cx, cy)`.  Emitted only on the `not colorize`
branch of `process_lots`. -/
def data_group (cx cy : ℚ) : XML :=
  XML.elem "g" [] none
    [const_status_group cx cy, lot_premium_group cx cy, sold_status_group cx cy]

/-- Lines 269–287: the lot-number label.  Colorized variant: centered,
12px, tagged `data-lot-id`; otherwise offset left by 6 with the
`commMapTxt` class.  Text falls back to `"N/A"` when the legal-lot
attribute is empty. -/
def labelElem (colorize : Bool) (cx cy : ℚ)
    (community_id lot_job legal_lot : String) : XML :=
  if colorize then
    XML.elem "text"
      [("transform", "matrix(1 0 0 1 " ++ ratStr cx ++ " " ++ ratStr (cy + 4) ++ ")"),
       ("font-size", "12px"), ("text-anchor", "middle"), ("fill", "#000000"),
       ("font-family", "Futura PT Book, sans-serif"),
       ("data-lot-id", community_id ++ "-" ++ lot_job)]
      (some (if legal_lot = "" then "N/A" else legal_lot)) []
  else
    XML.elem "text"
      [("transform", "matrix(1 0 0 1 " ++ ratStr (cx - 6) ++ " " ++ ratStr (cy + 4) ++ ")"),
       ("class", "commMapTxt"),
       ("data-lot-id", community_id ++ "-" ++ lot_job)]
      (some (if legal_lot = "" then "N/A" else legal_lot)) []

/-- The mutable state threaded through the `process_lots` loop: the
per-community lot groups and text groups (association lists in
first-seen order, values = accumulated children), the plan-colour map,
and the unused bucket. -/
structure LotsState where
  lotGroups : List (String × List XML)
  textGroups : List (String × List XML)
  planColorMap : List (String × String)
  unusedLots : List Geometry

/-- The state at loop entry (lines 165–171). -/
def initLotsState : LotsState := ⟨[], [], [], []⟩

/-- Lines 186–191: on first sight of a community id, create its lot
group and text group containers (in first-seen order). -/
def ensureCommunity (s : LotsState) (c : String) : LotsState :=
  if (List.lookup c s.lotGroups).isSome then s
  else { s with lotGroups := s.lotGroups ++ [(c, [])],
                textGroups := s.textGroups ++ [(c, [])] }

/-- Append children to the entry of key `k` (models `ET.SubElement` into
an existing community container; keys are unique by construction). -/
def appendA (m : List (String × List XML)) (k : String) (xs : List XML) :
    List (String × List XML) :=
  m.map fun e => if e.1 = k then (e.1, e.2 ++ xs) else e

/-- The body of the `for _, row in gdf.iterrows()` loop (lines 173–287):
strip the attributes, gate on `lot_job.isdigit()` (invalid rows go to the
unused bucket and are otherwise skipped), ensure the community
containers, resolve the fill colour, emit the lot group (paths, then —
only when not colorizing — the status-marker set), and emit the label
when the projected centroid lies within the canvas.  (Python `.strip()`
is modelled by `pyStrip`.) -/
def processRow (colorize : Bool) (fit : Fit) (canvas_width canvas_height : ℚ)
    (s : LotsState) (row : LotRow) : LotsState :=
  let community_id := (pyStrip row.community)
  let lot_job := (pyStrip row.lotJob)
  let legal_lot := (pyStrip row.legalLot)
  let plan := (pyStrip row.plan)
  if !(pyIsDigit lot_job) then
    { s with unusedLots := s.unusedLots ++ [row.geometry] }
  else
    let s1 := ensureCommunity s community_id
    let rf := resolveFill colorize s1.planColorMap plan
    let pc := transform_coords row.centroid.1 row.centroid.2 fit.minx fit.miny
      fit.scale fit.maxy fit.x_padding fit.y_padding
    let lotKids := process_geometry fit row.geometry rf.2 ++
      (if !colorize then [data_group pc.1 pc.2] else [])
    let lotElem := XML.elem "g"
      [("id", community_id ++ "-" ++ lot_job), ("class", "notavailable")] none lotKids
    let labelKids :=
      if 0 ≤ pc.1 ∧ pc.1 ≤ canvas_width ∧ 0 ≤ pc.2 ∧ pc.2 ≤ canvas_height then
        [labelElem colorize pc.1 pc.2 community_id lot_job legal_lot]
      else []
    { s1 with planColorMap := rf.1,
              lotGroups := appendA s1.lotGroups community_id [lotElem],
              textGroups := appendA s1.textGroups community_id labelKids }

/-- Lines 289–292: the dedicated unused group, rendered with the fixed
neutral gray, no markers, no labels. -/
def unused_group (fit : Fit) (geoms : List Geometry) : XML :=
  XML.elem "g" [("id", "unused"), ("class", "notavailable")] none
    ((geoms.map fun g => process_geometry fit g unused_fill).flatten)

/-- The fixed decorative compass-rose fragment (lines 90–162), parsed
from a pre-authored literal.  Its children are a fixed block of polygon
and path constants not derived from any input and not consulted by any
claim; they are elided here. -/
def compass_rose : XML :=
  XML.elem "g" [("id", "compass_rose"), ("transform", "matrix(1,0,0,1,590,300)")] none []

/-- The final `lots` container: community groups in first-seen order,
then (when non-empty) the unused bucket. -/
def buildLotsGroup (fit : Fit) (s : LotsState) : XML :=
  XML.elem "g" [("id", "lots")] none
    ((s.lotGroups.map fun e => XML.elem "g" [("id", e.1 ++ "-lots")] none e.2) ++
     (if s.unusedLots.isEmpty then [] else [unused_group fit s.unusedLots]))

/-- The final `text` container: community text groups in first-seen
order, then the compass rose (lines 295–306 insert it after the last
community group, which is an append; with no community groups it is
appended directly). -/
def buildTextGroup (s : LotsState) : XML :=
  let kids := s.textGroups.map fun e => XML.elem "g" [("id", e.1 ++ "-text")] none e.2
  XML.elem "g" [("id", "text")] none (kids ++ [compass_rose])

/-- `process_lots`: the single pass over lot records, returning the two
top-level containers it adds to the document (`include_dots` is accepted
but, as in the source, never read — marker emission is gated on
`colorize` alone). -/
def process_lots (fit : Fit) (canvas_width canvas_height : ℚ) (rows : List LotRow)
    (_include_dots colorize : Bool) : List XML :=
  let s := rows.foldl (processRow colorize fit canvas_width canvas_height) initLotsState
  [buildLotsGroup fit s, buildTextGroup s]

/-! ## Document assembly (`populate_svg`, `create_svg_root`, `geojson_to_svg`) -/

/-- A layer collection as produced by `combine_geojson_files`: `none`
when no files were supplied, otherwise the concatenated records. -/
def layerPresent {α : Type} (o : Option (List α)) : Bool :=
  match o with
  | none => false
  | some l => !l.isEmpty

/-- All coordinates contributed by a background layer. -/
def optGeomCoords (o : Option (List Geometry)) : List (ℚ × ℚ) :=
  match o with
  | none => []
  | some l => (l.map Geometry.coords).flatten

/-- All coordinates contributed by the lots layer. -/
def lotsCoords (o : Option (List LotRow)) : List (ℚ × ℚ) :=
  match o with
  | none => []
  | some l => (l.map fun r => r.geometry.coords).flatten

/-- `populate_svg`: the children of the root — the `open_roads`
container holding the background layers in road/grass/lakes order (each
only when present and non-empty), then, when the lots layer is present
and non-empty, the `lots` and `text` containers. -/
def populate_svg (fit : Fit) (canvas_width canvas_height : ℚ)
    (lots : Option (List LotRow)) (grass water road : Option (List Geometry))
    (include_dots colorize : Bool) : List XML :=
  let roadKids := if layerPresent road then
      [add_layer_to_svg fit (road.getD []) "road" "road" "#DBCDAE"] else []
  let grassKids := if layerPresent grass then
      [add_layer_to_svg fit (grass.getD []) "grass" "grass" "#808057"] else []
  let waterKids := if layerPresent water then
      [add_layer_to_svg fit (water.getD []) "lakes" "lakes" "#73B0CC"] else []
  let openRoads := XML.elem "g" [("id", "open_roads")] none
    (roadKids ++ grassKids ++ waterKids)
  let lotsPart := if layerPresent lots then
      process_lots fit canvas_width canvas_height (lots.getD []) include_dots colorize
    else []
  openRoads :: lotsPart

/-- `create_svg_root`: the document root with its fixed attribute set. -/
def create_svg_root (canvas_width canvas_height : ℚ) (children : List XML) : XML :=
  XML.elem "svg"
    [("version", "1.0"),
     ("xmlns", "http://www.w3.org/2000/svg"),
     ("xmlns:xlink", "http://www.w3.org/1999/xlink"),
     ("x", "0px"), ("y", "0px"),
     ("width", ratStr canvas_width ++ "px"),
     ("height", ratStr canvas_height ++ "px"),
     ("viewBox", "0 0 " ++ ratStr canvas_width ++ " " ++ ratStr canvas_height),
     ("xml:space", "preserve"),
     ("preserveAspectRatio", "xMinYMin"),
     ("style", "width:100%"),
     ("class", "tsPlotmap")] none children

/-- `os.path.splitext(s)[0]`: drop the extension after the final dot of
the final path component (a dot leading the component is kept). -/
def splitext_base (s : String) : String :=
  let rev := s.data.reverse
  let ext := rev.takeWhile fun c => c != '.' && c != '/'
  match rev.drop ext.length with
  | '.' :: rest =>
    if rest.isEmpty || rest.headD ' ' == '/' then s else String.mk rest.reverse
  | _ => s

/-- `geojson_to_svg`: the whole conversion run.  Fails (before any
output exists) when every layer collection is empty or absent; otherwise
fits the transform to the combined bounds and produces the two output
documents — `<base>_print.svg` with `colorize=True` and
`<base>_digital.svg` with `colorize=False` (both with
`include_dots=True`).  File writing is modelled by returning the
name/document pairs; the error branch returns none. -/
def geojson_to_svg (lots : Option (List LotRow))
    (grass water road : Option (List Geometry)) (output_file_base : String)
    (canvas_width canvas_height : ℚ) : Except String (List (String × XML)) :=
  if layerPresent lots || layerPresent grass || layerPresent water ||
      layerPresent road then
    let coords := lotsCoords lots ++ optGeomCoords grass ++ optGeomCoords water ++
      optGeomCoords road
    let fit := fit_of coords canvas_width canvas_height
    let base := splitext_base output_file_base
    .ok [(base ++ "_print.svg",
          create_svg_root canvas_width canvas_height
            (populate_svg fit canvas_width canvas_height lots grass water road true true)),
         (base ++ "_digital.svg",
          create_svg_root canvas_width canvas_height
            (populate_svg fit canvas_width canvas_height lots grass water road true false))]
  else
    .error "No valid geometries found in the input files."

/-! ## Marker geometry editor (`src/gui/svg_editor.py`) -/

/-- A selectable marker dot as held in the editor scene: its selection
state and its scene position (the center of its bounding rect). -/
structure EditorDot where
  selected : Bool
  center : ℚ × ℚ

/-- One entry of the editor's `self.groups` list.  `load_groups` — the
only writer of the list — appends the 6-tuple
`(dot, circle, text, polygon, path, path_item)` (svg_editor.py:497),
although the attribute is initialised with the comment that it holds
`(dot_item, circle_elem)` pairs (line 121). -/
structure EditorGroup where
  dot : EditorDot
  circle : XML
  text : Option XML
  polygon : Option XML
  path : Option XML
  path_item : Option XML

/-- Python 2-name iterable unpacking, `dot, x = entry`, applied to one
entry of `self.groups`.  The entry is a 6-tuple, and unpacking a tuple
of six values into two names raises
`ValueError: too many values to unpack (expected 2)` regardless of the
values; over an empty list the unpacking loop body never runs. -/
def unpack2 (_entry : EditorGroup) : Except String (EditorDot × XML) :=
  .error "ValueError: too many values to unpack (expected 2)"

/-- `swap_selected_dots` (svg_editor.py:329–366) against the actual
shape of `self.groups`.  The selection comprehension
`[dot for dot, _ in self.groups if dot.isSelected()]` (line 332)
2-unpacks each 6-tuple entry, so it raises ValueError on the first
entry whenever any marker group is loaded; only over an empty
`self.groups` does it yield `[]`, after which the size check fires the
swap-error warning (a `QMessageBox.warning`, the spec's
`SelectionError`) and returns with nothing changed.  The result is the
raised error, or the reported warning (if any) with the groups list.
The swap branch — unreachable, since two selected dots would need a
non-empty list, on which the comprehension has already raised — is
modelled up to its own `for dot, circle_elem in self.groups` loop
(line 348), which 2-unpacks the 6-tuples again. -/
def swap_selected_dots (groups : List EditorGroup) :
    Except String (Option String × List EditorGroup) := do
  let dots ← groups.mapM fun t => (unpack2 t).map (·.1)
  let selected_dots := dots.filter (·.selected)
  if selected_dots.length ≠ 2 then
    return (some "Please select exactly two dots to swap.", groups)
  else
    let _ ← groups.mapM unpack2
    return (none, groups)

/-- The fixed marker-class assignment order of `auto_arrange_dots`
(line 313). -/
def dot_classes : List String := ["constStatus", "lotPremium", "soldStatus"]

/-- `group_elem.find("svg:g[@class=<cls>]/svg:circle", ns)`
(svg_editor.py:316): the first `circle` child of a directly-nested `g`
child of `group_elem` carrying exactly the class `cls`; `None` when no
such directly-nested pair exists. -/
def findClassCircle (group_elem : XML) (cls : String) : Option XML :=
  (group_elem.children.filterMap fun c =>
    match c with
    | .elem t attrs _ cs =>
      if t == "g" && (List.lookup "class" attrs == some cls) then
        cs.find? fun d => match d with | .elem td _ _ _ => td == "circle"
      else none).head?

/-- The `auto_arrange_dots` loop body for one path-bearing group element
(svg_editor.py:280–324).  `path_points` is the point loop parsed out of
the group's path `d` attribute by the external `svg.path` library;
`containsP` models the external shapely `Polygon.contains`
strict-interior test; `groups` is the editor's `self.groups`.  The body
computes the bounding box, the inset `max(8% of the box width, 10)`,
the four inset corner candidates, keeps the candidates strictly inside
the polygon, and walks the first survivors in the fixed class order
(`enumerate(valid_positions[:len(dot_classes)])`): for each it looks up
a directly-nested class circle on `group_elem`; a missing circle skips
the candidate, and a found circle has its coordinates set, after which
the scene-sync loop `for dot, original_circle in self.groups`
(line 322) 2-unpacks the 6-tuple entries — raising ValueError whenever
any group is loaded.  Returns the `(class, position)` assignments
performed, or the raised error. -/
def auto_arrange_group (containsP : ℚ × ℚ → Bool) (groups : List EditorGroup)
    (group_elem : XML) (path_points : List (ℚ × ℚ)) :
    Except String (List (String × (ℚ × ℚ))) :=
  let b := total_bounds path_points
  let inset := max ((b.2.2.1 - b.1) * 0.08) 10
  let corner_positions :=
    [(b.1 + inset, b.2.1 + inset), (b.2.2.1 - inset, b.2.1 + inset),
     (b.1 + inset, b.2.2.2 - inset), (b.2.2.1 - inset, b.2.2.2 - inset)]
  let valid_positions := corner_positions.filter containsP
  (List.zip dot_classes (valid_positions.take dot_classes.length)).foldlM
    (fun acc pair =>
      match findClassCircle group_elem pair.1 with
      | some _ => do
        let _ ← groups.mapM unpack2
        pure (acc ++ [pair])
      | none => pure acc)
    []

/-! ## Statement-side helpers -/

/-- All `.text` contents of a document subtree, in document order. -/
def XML.texts : XML → List String
  | .elem _ _ t cs =>
    (match t with | some s => [s] | none => []) ++
      (cs.attach.map fun c => XML.texts c.1).flatten
termination_by x => sizeOf x
decreasing_by
  simp only [XML.elem.sizeOf_spec]
  have := List.sizeOf_lt_of_mem c.2
  omega

/-- Blank out the three status attributes of a record (used to state
that the output is independent of them). -/
def scrub (r : LotRow) : LotRow :=
  { r with lotPremium := "", soldStatus := "", constStatus := "" }

/-- One step of the first-seen distinct non-empty plan names of the
valid records. -/
def planSeen (acc : List String) (r : LotRow) : List String :=
  if pyIsDigit (pyStrip r.lotJob) then
    if (pyStrip r.plan) ∉ acc ∧ (pyStrip r.plan) ≠ "" then
      acc ++ [pyStrip r.plan]
    else acc
  else acc

/-- The distinct non-empty plan names of the valid records, in
first-seen order. -/
def distinctPlans (rows : List LotRow) : List String := rows.foldl planSeen []

/-- Pairs the `n`-th name of a list (0-indexed, offset by `k`) with
palette colour `(k+n) % 6`. -/
def colorTable (k : Nat) : List String → List (String × String)
  | [] => []
  | p :: ps => (p, planColorAt k) :: colorTable (k + 1) ps

/-- The loop state after the first `n` records (colorized pass). -/
def lotsStateAt (fit : Fit) (canvas_width canvas_height : ℚ)
    (rows : List LotRow) (n : Nat) : LotsState :=
  (rows.take n).foldl (processRow true fit canvas_width canvas_height) initLotsState

/-- The fill colour resolved for the `n`-th record during the colorized
pass — the exact expression `processRow` evaluates at that step. -/
def rowFillAt (fit : Fit) (canvas_width canvas_height : ℚ)
    (rows : List LotRow) (n : Nat) : Option String :=
  (rows.get? n).map fun r =>
    (resolveFill true
      (ensureCommunity (lotsStateAt fit canvas_width canvas_height rows n)
        (pyStrip r.community)).planColorMap (pyStrip r.plan)).2

/-! ## Basic lemmas -/

theorem processRow_invalid (colorize : Bool) (fit : Fit) (cw ch : ℚ)
    (s : LotsState) (row : LotRow) (h : pyIsDigit (pyStrip row.lotJob) = false) :
    processRow colorize fit cw ch s row =
      { s with unusedLots := s.unusedLots ++ [row.geometry] } := by
  simp [processRow, h]

theorem processRow_valid (colorize : Bool) (fit : Fit) (cw ch : ℚ)
    (s : LotsState) (row : LotRow) (h : pyIsDigit (pyStrip row.lotJob) = true) :
    processRow colorize fit cw ch s row =
      { ensureCommunity s (pyStrip row.community) with
        planColorMap :=
          (resolveFill colorize
            (ensureCommunity s (pyStrip row.community)).planColorMap (pyStrip row.plan)).1,
        lotGroups :=
          appendA (ensureCommunity s (pyStrip row.community)).lotGroups (pyStrip row.community)
            [XML.elem "g"
              [("id", (pyStrip row.community) ++ "-" ++ (pyStrip row.lotJob)),
               ("class", "notavailable")] none
              (process_geometry fit row.geometry
                 (resolveFill colorize
                   (ensureCommunity s (pyStrip row.community)).planColorMap
                   (pyStrip row.plan)).2 ++
               (if !colorize then
                  [data_group
                    (transform_coords row.centroid.1 row.centroid.2 fit.minx fit.miny
                      fit.scale fit.maxy fit.x_padding fit.y_padding).1
                    (transform_coords row.centroid.1 row.centroid.2 fit.minx fit.miny
                      fit.scale fit.maxy fit.x_padding fit.y_padding).2]
                else []))],
        textGroups :=
          appendA (ensureCommunity s (pyStrip row.community)).textGroups (pyStrip row.community)
            (if 0 ≤ (transform_coords row.centroid.1 row.centroid.2 fit.minx fit.miny
                      fit.scale fit.maxy fit.x_padding fit.y_padding).1 ∧
                (transform_coords row.centroid.1 row.centroid.2 fit.minx fit.miny
                  fit.scale fit.maxy fit.x_padding fit.y_padding).1 ≤ cw ∧
                0 ≤ (transform_coords row.centroid.1 row.centroid.2 fit.minx fit.miny
                      fit.scale fit.maxy fit.x_padding fit.y_padding).2 ∧
                (transform_coords row.centroid.1 row.centroid.2 fit.minx fit.miny
                  fit.scale fit.maxy fit.x_padding fit.y_padding).2 ≤ ch then
              [labelElem colorize
                (transform_coords row.centroid.1 row.centroid.2 fit.minx fit.miny
                  fit.scale fit.maxy fit.x_padding fit.y_padding).1
                (transform_coords row.centroid.1 row.centroid.2 fit.minx fit.miny
                  fit.scale fit.maxy fit.x_padding fit.y_padding).2
                (pyStrip row.community) (pyStrip row.lotJob) (pyStrip row.legalLot)]
            else []) } := by
  simp [processRow, h]

/-- Accumulator monotonicity and membership bounds for the running
bounding-box fold. -/
theorem boundsFold_le (l : List (ℚ × ℚ)) (b : ℚ × ℚ × ℚ × ℚ) :
    ((l.foldl boundsStep b).1 ≤ b.1 ∧ (l.foldl boundsStep b).2.1 ≤ b.2.1 ∧
      b.2.2.1 ≤ (l.foldl boundsStep b).2.2.1 ∧
      b.2.2.2 ≤ (l.foldl boundsStep b).2.2.2) ∧
    ∀ p ∈ l, (l.foldl boundsStep b).1 ≤ p.1 ∧ (l.foldl boundsStep b).2.1 ≤ p.2 ∧
      p.1 ≤ (l.foldl boundsStep b).2.2.1 ∧ p.2 ≤ (l.foldl boundsStep b).2.2.2 := by
  induction l generalizing b with
  | nil => simp
  | cons q rest ih =>
    simp only [List.foldl_cons, boundsStep]
    obtain ⟨⟨h1, h2, h3, h4⟩, hmem⟩ := ih (min b.1 q.1, min b.2.1 q.2,
      max b.2.2.1 q.1, max b.2.2.2 q.2)
    refine ⟨⟨le_trans h1 (min_le_left _ _), le_trans h2 (min_le_left _ _),
      le_trans (le_max_left _ _) h3, le_trans (le_max_left _ _) h4⟩, ?_⟩
    intro p hp
    rcases List.mem_cons.mp hp with h | h
    · subst h
      exact ⟨le_trans h1 (min_le_right _ _), le_trans h2 (min_le_right _ _),
        le_trans (le_max_right _ _) h3, le_trans (le_max_right _ _) h4⟩
    · exact hmem p h

/-- Every coordinate lies inside the combined bounding box. -/
theorem total_bounds_mem (coords : List (ℚ × ℚ)) (p : ℚ × ℚ) (hp : p ∈ coords) :
    (total_bounds coords).1 ≤ p.1 ∧ (total_bounds coords).2.1 ≤ p.2 ∧
    p.1 ≤ (total_bounds coords).2.2.1 ∧ p.2 ≤ (total_bounds coords).2.2.2 := by
  match coords, hp with
  | q :: rest, hp =>
    simp only [total_bounds]
    rcases List.mem_cons.mp hp with h | h
    · subst h
      have h' := (boundsFold_le rest (p.1, p.2, p.1, p.2)).1
      exact ⟨h'.1, h'.2.1, h'.2.2.1, h'.2.2.2⟩
    · exact (boundsFold_le rest (q.1, q.2, q.1, q.2)).2 p h

/-! ## Claim theorems -/

/-- C3: the coordinate transformer is the pure affine Y-flipping map
`project(x, y) = ((x - minX) * scale + xPadding, (maxY - y) * scale + yPadding)`;
consequently a point at `y = maxY` projects to y-coordinate `yPadding`,
and a point at `x = minX` projects to x-coordinate `xPadding`. -/
theorem transform_coords_affine_flip (x y minx miny scale maxy x_padding y_padding : ℚ) :
    transform_coords x y minx miny scale maxy x_padding y_padding =
      ((x - minx) * scale + x_padding, (maxy - y) * scale + y_padding) ∧
    (transform_coords x maxy minx miny scale maxy x_padding y_padding).2 = y_padding ∧
    (transform_coords minx y minx miny scale maxy x_padding y_padding).1 = x_padding := by
  refine ⟨rfl, ?_, ?_⟩ <;> simp [transform_coords]

/-- C2: for a non-empty input whose combined bounding box has positive
width and height (and a non-negative canvas), the fitted transform uses
the uniform contain-fit scale `min(canvasW/geomW, canvasH/geomH)` with
symmetric per-axis padding `(canvasDim - scaledGeomDim)/2`, and every
input coordinate projects into `[0, canvasW] × [0, canvasH]`. -/
theorem fit_of_scale_padding_contains (coords : List (ℚ × ℚ))
    (cw ch mnx mny mxx mxy x y : ℚ) (p : ℚ × ℚ) (hp : p ∈ coords)
    (hb : total_bounds coords = (mnx, mny, mxx, mxy))
    (hgw : 0 < mxx - mnx) (hgh : 0 < mxy - mny) (hcw : 0 ≤ cw) (hch : 0 ≤ ch)
    (hx1 : mnx ≤ x) (hx2 : x ≤ mxx) (hy1 : mny ≤ y) (hy2 : y ≤ mxy) :
    (fit_of coords cw ch).scale = min (cw / (mxx - mnx)) (ch / (mxy - mny)) ∧
    (fit_of coords cw ch).x_padding =
      (cw - (mxx - mnx) * (fit_of coords cw ch).scale) / 2 ∧
    (fit_of coords cw ch).y_padding =
      (ch - (mxy - mny) * (fit_of coords cw ch).scale) / 2 ∧
    (mnx ≤ p.1 ∧ p.1 ≤ mxx ∧ mny ≤ p.2 ∧ p.2 ≤ mxy) ∧
    (0 ≤ (transform_coords x y (fit_of coords cw ch).minx (fit_of coords cw ch).miny
          (fit_of coords cw ch).scale (fit_of coords cw ch).maxy
          (fit_of coords cw ch).x_padding (fit_of coords cw ch).y_padding).1 ∧
      (transform_coords x y (fit_of coords cw ch).minx (fit_of coords cw ch).miny
          (fit_of coords cw ch).scale (fit_of coords cw ch).maxy
          (fit_of coords cw ch).x_padding (fit_of coords cw ch).y_padding).1 ≤ cw ∧
      0 ≤ (transform_coords x y (fit_of coords cw ch).minx (fit_of coords cw ch).miny
          (fit_of coords cw ch).scale (fit_of coords cw ch).maxy
          (fit_of coords cw ch).x_padding (fit_of coords cw ch).y_padding).2 ∧
      (transform_coords x y (fit_of coords cw ch).minx (fit_of coords cw ch).miny
          (fit_of coords cw ch).scale (fit_of coords cw ch).maxy
          (fit_of coords cw ch).x_padding (fit_of coords cw ch).y_padding).2 ≤ ch) := by
  have hmem := total_bounds_mem coords p hp
  rw [hb] at hmem
  set s : ℚ := min (cw / (mxx - mnx)) (ch / (mxy - mny)) with hs
  have hscale : (fit_of coords cw ch).scale = s := by
    simp [fit_of, hb, hs]
  have hminx : (fit_of coords cw ch).minx = mnx := by simp [fit_of, hb]
  have hmaxy : (fit_of coords cw ch).maxy = mxy := by simp [fit_of, hb]
  have hxp : (fit_of coords cw ch).x_padding = (cw - (mxx - mnx) * s) / 2 := by
    simp [fit_of, hb, hs]
  have hypad : (fit_of coords cw ch).y_padding = (ch - (mxy - mny) * s) / 2 := by
    simp [fit_of, hb, hs]
  have hs0 : 0 ≤ s := le_min (div_nonneg hcw hgw.le) (div_nonneg hch hgh.le)
  have hsw : (mxx - mnx) * s ≤ cw := by
    have h1 : s ≤ cw / (mxx - mnx) := min_le_left _ _
    have h2 := (le_div_iff₀ hgw).mp h1
    linarith [h2]
  have hsh : (mxy - mny) * s ≤ ch := by
    have h1 : s ≤ ch / (mxy - mny) := min_le_right _ _
    have h2 := (le_div_iff₀ hgh).mp h1
    linarith [h2]
  have hxs : (x - mnx) * s ≤ (mxx - mnx) * s :=
    mul_le_mul_of_nonneg_right (by linarith) hs0
  have hxs0 : 0 ≤ (x - mnx) * s := mul_nonneg (by linarith) hs0
  have hys : (mxy - y) * s ≤ (mxy - mny) * s :=
    mul_le_mul_of_nonneg_right (by linarith) hs0
  have hys0 : 0 ≤ (mxy - y) * s := mul_nonneg (by linarith) hs0
  refine ⟨by rw [hscale], by rw [hxp, hscale], by rw [hypad, hscale],
    ⟨hmem.1, hmem.2.2.1, hmem.2.1, hmem.2.2.2⟩, ?_, ?_, ?_, ?_⟩ <;>
    · simp only [transform_coords, hminx, hmaxy, hscale, hxp, hypad]
      linarith

/-- Witness for C2 at a concrete two-point input on the default canvas,
projecting the bounding-box corner `(0, 5)`. -/
theorem fit_of_scale_padding_contains_witness :
    ((10 : ℚ), (5 : ℚ)) ∈ [((0 : ℚ), (0 : ℚ)), (10, 5)] ∧
    total_bounds [((0 : ℚ), (0 : ℚ)), (10, 5)] = (0, 0, 10, 5) ∧
    (0 : ℚ) < 10 - 0 ∧ (0 : ℚ) < 5 - 0 ∧ (0 : ℚ) ≤ 1440 ∧ (0 : ℚ) ≤ 840 ∧
    (0 : ℚ) ≤ 0 ∧ (0 : ℚ) ≤ 10 ∧ (0 : ℚ) ≤ 5 ∧ (5 : ℚ) ≤ 5 ∧
    ((fit_of [((0 : ℚ), (0 : ℚ)), (10, 5)] 1440 840).scale =
        min (1440 / (10 - 0)) (840 / (5 - 0)) ∧
      (fit_of [((0 : ℚ), (0 : ℚ)), (10, 5)] 1440 840).x_padding =
        (1440 - (10 - 0) * (fit_of [((0 : ℚ), (0 : ℚ)), (10, 5)] 1440 840).scale) / 2 ∧
      (fit_of [((0 : ℚ), (0 : ℚ)), (10, 5)] 1440 840).y_padding =
        (840 - (5 - 0) * (fit_of [((0 : ℚ), (0 : ℚ)), (10, 5)] 1440 840).scale) / 2 ∧
      ((0 : ℚ) ≤ 10 ∧ (10 : ℚ) ≤ 10 ∧ (0 : ℚ) ≤ 5 ∧ (5 : ℚ) ≤ 5) ∧
      (0 ≤ (transform_coords (0 : ℚ) 5
            (fit_of [((0 : ℚ), (0 : ℚ)), (10, 5)] 1440 840).minx
            (fit_of [((0 : ℚ), (0 : ℚ)), (10, 5)] 1440 840).miny
            (fit_of [((0 : ℚ), (0 : ℚ)), (10, 5)] 1440 840).scale
            (fit_of [((0 : ℚ), (0 : ℚ)), (10, 5)] 1440 840).maxy
            (fit_of [((0 : ℚ), (0 : ℚ)), (10, 5)] 1440 840).x_padding
            (fit_of [((0 : ℚ), (0 : ℚ)), (10, 5)] 1440 840).y_padding).1 ∧
        (transform_coords (0 : ℚ) 5
            (fit_of [((0 : ℚ), (0 : ℚ)), (10, 5)] 1440 840).minx
            (fit_of [((0 : ℚ), (0 : ℚ)), (10, 5)] 1440 840).miny
            (fit_of [((0 : ℚ), (0 : ℚ)), (10, 5)] 1440 840).scale
            (fit_of [((0 : ℚ), (0 : ℚ)), (10, 5)] 1440 840).maxy
            (fit_of [((0 : ℚ), (0 : ℚ)), (10, 5)] 1440 840).x_padding
            (fit_of [((0 : ℚ), (0 : ℚ)), (10, 5)] 1440 840).y_padding).1 ≤ 1440 ∧
        0 ≤ (transform_coords (0 : ℚ) 5
            (fit_of [((0 : ℚ), (0 : ℚ)), (10, 5)] 1440 840).minx
            (fit_of [((0 : ℚ), (0 : ℚ)), (10, 5)] 1440 840).miny
            (fit_of [((0 : ℚ), (0 : ℚ)), (10, 5)] 1440 840).scale
            (fit_of [((0 : ℚ), (0 : ℚ)), (10, 5)] 1440 840).maxy
            (fit_of [((0 : ℚ), (0 : ℚ)), (10, 5)] 1440 840).x_padding
            (fit_of [((0 : ℚ), (0 : ℚ)), (10, 5)] 1440 840).y_padding).2 ∧
        (transform_coords (0 : ℚ) 5
            (fit_of [((0 : ℚ), (0 : ℚ)), (10, 5)] 1440 840).minx
            (fit_of [((0 : ℚ), (0 : ℚ)), (10, 5)] 1440 840).miny
            (fit_of [((0 : ℚ), (0 : ℚ)), (10, 5)] 1440 840).scale
            (fit_of [((0 : ℚ), (0 : ℚ)), (10, 5)] 1440 840).maxy
            (fit_of [((0 : ℚ), (0 : ℚ)), (10, 5)] 1440 840).x_padding
            (fit_of [((0 : ℚ), (0 : ℚ)), (10, 5)] 1440 840).y_padding).2 ≤ 840)) :=
  ⟨by decide, by decide, by simp, by simp, by simp, by simp,
    le_refl 0, by simp, by simp, le_refl 5,
    fit_of_scale_padding_contains [((0 : ℚ), (0 : ℚ)), (10, 5)] 1440 840 0 0 10 5
      0 5 (10, 5) (by decide) (by decide) (by simp) (by simp) (by simp) (by simp)
      (le_refl 0) (by simp) (by simp) (le_refl 5)⟩

/-- C8 (code bug): the claimed behaviour — selection size ≠ 2 reports
the selection error and changes nothing — is the documented intent
(`self.groups` is initialised as a list of `(dot_item, circle_elem)`
pairs, svg_editor.py:121, and the method is written for pairs), but the
list actually holds the 6-tuples appended by `load_groups` (line 497),
so the selection comprehension (line 332) raises
`ValueError: too many values to unpack (expected 2)` before the
selection-size check whenever any marker group is loaded: here one
loaded, unselected constStatus entry (selection size 0 ≠ 2) raises, and
no swap-error warning is ever shown.  Only with no groups loaded at all
does the claimed warning-and-no-op behaviour occur. -/
theorem swap_selected_dots_valueerror :
    swap_selected_dots
        [⟨⟨false, (10, 20)⟩,
          XML.elem "circle"
            [("fill", "#444445"), ("cx", "10"), ("cy", "20"), ("r", "4")] none [],
          none, none, none, none⟩] =
      .error "ValueError: too many values to unpack (expected 2)" ∧
    swap_selected_dots [] =
      .ok (some "Please select exactly two dots to swap.", []) :=
  ⟨rfl, rfl⟩

/-- C9: when every layer collection is empty or absent, the pipeline
fails with the empty-input error and produces no output documents (the
error branch returns before any file pair is built). -/
theorem geojson_to_svg_empty_input (lots : Option (List LotRow))
    (grass water road : Option (List Geometry)) (base : String) (cw ch : ℚ)
    (hl : layerPresent lots = false) (hg : layerPresent grass = false)
    (hw : layerPresent water = false) (hr : layerPresent road = false) :
    geojson_to_svg lots grass water road base cw ch =
      .error "No valid geometries found in the input files." := by
  simp [geojson_to_svg, hl, hg, hw, hr]

/-- Witness for C9: all four layers absent. -/
theorem geojson_to_svg_empty_input_witness :
    layerPresent (none : Option (List LotRow)) = false ∧
    layerPresent (none : Option (List Geometry)) = false ∧
    geojson_to_svg none none none none "out" 1440 840 =
      .error "No valid geometries found in the input files." :=
  ⟨rfl, rfl, geojson_to_svg_empty_input none none none none "out" 1440 840
    rfl rfl rfl rfl⟩

/-- C5: a lot record is valid iff its trimmed lot-job attribute is a
digit string — equivalently, iff `String.toNat?` parses it as a
non-negative integer — and an invalid record's only effect on the run
state is appending its geometry to the unused bucket: community lot
groups, text groups (labels) and the plan-colour map are untouched, so
the record never reaches any community group, label or marker; the
unused bucket is rendered as the single `unused` group whose every
geometry is emitted with the fixed neutral gray fill `#d3d3d3`. -/
theorem invalid_lot_routed_only_to_unused (colorize : Bool) (fit : Fit)
    (cw ch : ℚ) (s : LotsState) (row : LotRow) (t : String)
    (geoms : List Geometry) (h : pyIsDigit (pyStrip row.lotJob) = false) :
    (pyIsDigit t = true ↔ (String.toNat? t).isSome) ∧
    processRow colorize fit cw ch s row =
      { s with unusedLots := s.unusedLots ++ [row.geometry] } ∧
    unused_group fit geoms =
      XML.elem "g" [("id", "unused"), ("class", "notavailable")] none
        ((geoms.map fun g => process_geometry fit g "#d3d3d3").flatten) := by
  refine ⟨?_, processRow_invalid colorize fit cw ch s row h, rfl⟩
  simp [pyIsDigit, String.toNat?, String.isNat, String.all_eq]

/-- Witness for C5: a record whose lot-job attribute is `"N/A"`. -/
theorem invalid_lot_routed_only_to_unused_witness :
    pyIsDigit (pyStrip "N/A") = false ∧
    ((pyIsDigit "12" = true ↔ (String.toNat? "12").isSome) ∧
      processRow true ⟨0, 0, 10, 84, 300, 0⟩ 1440 840 initLotsState
          ⟨"A", "N/A", "", "", "", "", "",
            Geometry.polygon [(0, 0), (4, 0), (4, 4), (0, 4), (0, 0)], (2, 2)⟩ =
        { initLotsState with
          unusedLots := initLotsState.unusedLots ++
            [Geometry.polygon [(0, 0), (4, 0), (4, 4), (0, 4), (0, 0)]] } ∧
      unused_group ⟨0, 0, 10, 84, 300, 0⟩ [Geometry.polygon [(0, 0)]] =
        XML.elem "g" [("id", "unused"), ("class", "notavailable")] none
          (([Geometry.polygon [(0, 0)]].map fun g =>
            process_geometry ⟨0, 0, 10, 84, 300, 0⟩ g "#d3d3d3").flatten)) :=
  ⟨by decide,
    invalid_lot_routed_only_to_unused true ⟨0, 0, 10, 84, 300, 0⟩ 1440 840
      initLotsState
      ⟨"A", "N/A", "", "", "", "", "",
        Geometry.polygon [(0, 0), (4, 0), (4, 4), (0, 4), (0, 0)], (2, 2)⟩
      "12" [Geometry.polygon [(0, 0)]] (by decide)⟩

/-- C6: for a valid record, the label element is emitted into the
community text group iff the projected centroid `(cx, cy)` satisfies
`0 ≤ cx ≤ canvasW` and `0 ≤ cy ≤ canvasH`; either way the lot's path —
and, in the marker-bearing uncolorized variant, its marker set — is
emitted into the community lot group; an emitted label's text is the
trimmed legal-lot attribute, or the literal `"N/A"` when it is empty. -/
theorem label_emitted_iff_centroid_in_canvas (colorize : Bool) (fit : Fit)
    (cw ch cx cy : ℚ) (s : LotsState) (row : LotRow)
    (h : pyIsDigit (pyStrip row.lotJob) = true)
    (hcx : cx = (transform_coords row.centroid.1 row.centroid.2 fit.minx fit.miny
      fit.scale fit.maxy fit.x_padding fit.y_padding).1)
    (hcy : cy = (transform_coords row.centroid.1 row.centroid.2 fit.minx fit.miny
      fit.scale fit.maxy fit.x_padding fit.y_padding).2) :
    processRow colorize fit cw ch s row =
      { ensureCommunity s (pyStrip row.community) with
        planColorMap := (resolveFill colorize
          (ensureCommunity s (pyStrip row.community)).planColorMap (pyStrip row.plan)).1,
        lotGroups := appendA (ensureCommunity s (pyStrip row.community)).lotGroups
          (pyStrip row.community)
          [XML.elem "g" [("id", (pyStrip row.community) ++ "-" ++ (pyStrip row.lotJob)),
             ("class", "notavailable")] none
            (process_geometry fit row.geometry
              (resolveFill colorize
                (ensureCommunity s (pyStrip row.community)).planColorMap
                (pyStrip row.plan)).2 ++
             (if !colorize then [data_group cx cy] else []))],
        textGroups := appendA (ensureCommunity s (pyStrip row.community)).textGroups
          (pyStrip row.community)
          (if 0 ≤ cx ∧ cx ≤ cw ∧ 0 ≤ cy ∧ cy ≤ ch then
            [labelElem colorize cx cy (pyStrip row.community) (pyStrip row.lotJob)
              (pyStrip row.legalLot)]
          else []) } ∧
    (labelElem colorize cx cy (pyStrip row.community) (pyStrip row.lotJob)
      (pyStrip row.legalLot)).textContent =
      some (if (pyStrip row.legalLot) = "" then "N/A" else (pyStrip row.legalLot)) := by
  subst hcx hcy
  refine ⟨processRow_valid colorize fit cw ch s row h, ?_⟩
  cases colorize <;> simp [labelElem, XML.textContent]

unseal Rat.mul Rat.sub Rat.add Rat.inv Rat.ofScientific in
/-- Witness for C6: a valid lot whose projected centroid `(5, 5)` lies
inside the default canvas. -/
theorem label_emitted_iff_centroid_in_canvas_witness :
    pyIsDigit (pyStrip "12") = true ∧
    (5 : ℚ) = (transform_coords 5 5 0 0 1 10 0 0).1 ∧
    (5 : ℚ) = (transform_coords 5 5 0 0 1 10 0 0).2 ∧
    (processRow true ⟨0, 0, 10, 1, 0, 0⟩ 1440 840 initLotsState
        ⟨"A", "12", "Lot 12", "Estate", "", "", "",
          Geometry.polygon [(0, 0), (10, 0), (10, 10), (0, 10), (0, 0)], (5, 5)⟩ =
      { ensureCommunity initLotsState (pyStrip "A") with
        planColorMap := (resolveFill true
          (ensureCommunity initLotsState (pyStrip "A")).planColorMap
          (pyStrip "Estate")).1,
        lotGroups := appendA
          (ensureCommunity initLotsState (pyStrip "A")).lotGroups (pyStrip "A")
          [XML.elem "g" [("id", pyStrip "A" ++ "-" ++ pyStrip "12"),
             ("class", "notavailable")] none
            (process_geometry ⟨0, 0, 10, 1, 0, 0⟩
              (Geometry.polygon [(0, 0), (10, 0), (10, 10), (0, 10), (0, 0)])
              (resolveFill true
                (ensureCommunity initLotsState (pyStrip "A")).planColorMap
                (pyStrip "Estate")).2 ++
             (if !true then [data_group 5 5] else []))],
        textGroups := appendA
          (ensureCommunity initLotsState (pyStrip "A")).textGroups (pyStrip "A")
          (if 0 ≤ (5 : ℚ) ∧ (5 : ℚ) ≤ 1440 ∧ 0 ≤ (5 : ℚ) ∧ (5 : ℚ) ≤ 840 then
            [labelElem true 5 5 (pyStrip "A") (pyStrip "12") (pyStrip "Lot 12")]
          else []) } ∧
      (labelElem true 5 5 (pyStrip "A") (pyStrip "12")
        (pyStrip "Lot 12")).textContent =
        some (if pyStrip "Lot 12" = "" then "N/A" else pyStrip "Lot 12")) :=
  ⟨by decide, by decide, by decide,
    label_emitted_iff_centroid_in_canvas true ⟨0, 0, 10, 1, 0, 0⟩ 1440 840 5 5
      initLotsState
      ⟨"A", "12", "Lot 12", "Estate", "", "", "",
        Geometry.polygon [(0, 0), (10, 0), (10, 10), (0, 10), (0, 0)], (5, 5)⟩
      (by decide) (by decide) (by decide)⟩

/-- Navigate to the first lot sub-group of the first community group of
the `lots` container (document child 1) and count its children. -/
def firstLotKidCount (doc : XML) : Nat :=
  ((((doc.children.getD 1 xmlDefault).children.getD 0 xmlDefault).children.getD 0
    xmlDefault).children).length

/-- The second child (the marker set, when present) of that first lot
sub-group. -/
def firstLotMarker (doc : XML) : Option XML :=
  (((doc.children.getD 1 xmlDefault).children.getD 0 xmlDefault).children.getD 0
    xmlDefault).children[1]?

unseal Rat.mul Rat.sub Rat.add Rat.inv Rat.ofScientific in
/-- C1 counterexample: on a run with one valid lot (community `"A"`, lot
job `"12"`, canvas 1440×840), the colorized `_print` document's lot
group holds only the lot path — no status-marker set — while the
uncolorized `_digital` document's lot group holds the path followed by
the marker set anchored at the projected centroid `(720, 420)`.  The
claim that every valid lot's print output contains the marker set is
therefore false on this input. -/
theorem print_contains_markers_counterexample :
    pyIsDigit (pyStrip "12") = true ∧
    (geojson_to_svg
        (some [⟨"A", "12", "Lot 12", "Estate", "", "", "",
          Geometry.polygon [(0, 0), (10, 0), (10, 10), (0, 10), (0, 0)], (5, 5)⟩])
        none none none "o" 1440 840).map
        (fun l => l.map fun x => (x.1, firstLotKidCount x.2)) =
      .ok [("o_print.svg", 1), ("o_digital.svg", 2)] ∧
    (geojson_to_svg
        (some [⟨"A", "12", "Lot 12", "Estate", "", "", "",
          Geometry.polygon [(0, 0), (10, 0), (10, 10), (0, 10), (0, 0)], (5, 5)⟩])
        none none none "o" 1440 840).map
        (fun l => l.map fun x => firstLotMarker x.2) =
      .ok [none, some (data_group 720 420)] := by
  refine ⟨by decide, ?_, ?_⟩ <;> rfl

/-- C1 (amended): both output variants are produced per run, but only
the uncolorized digital variant bakes in the per-lot status-marker set.
For every valid lot record, the uncolorized pass emits the lot path(s)
followed by the marker set anchored at the projected centroid
`(cx, cy)` (construction-status circle at `(cx+5, cy)`, premium star
circle at `(cx, cy-5)`, sold-status circle with embedded house icon at
`(cx-5, cy)`) and uses the default fill; the colorized print pass emits
the path(s) with the plan-resolved fill and no marker set. -/
theorem markers_only_in_uncolorized_variant (fit : Fit) (cw ch cx cy : ℚ)
    (s : LotsState) (row : LotRow)
    (h : pyIsDigit (pyStrip row.lotJob) = true)
    (hcx : cx = (transform_coords row.centroid.1 row.centroid.2 fit.minx fit.miny
      fit.scale fit.maxy fit.x_padding fit.y_padding).1)
    (hcy : cy = (transform_coords row.centroid.1 row.centroid.2 fit.minx fit.miny
      fit.scale fit.maxy fit.x_padding fit.y_padding).2) :
    processRow false fit cw ch s row =
      { ensureCommunity s (pyStrip row.community) with
        planColorMap := (ensureCommunity s (pyStrip row.community)).planColorMap,
        lotGroups := appendA (ensureCommunity s (pyStrip row.community)).lotGroups
          (pyStrip row.community)
          [XML.elem "g"
            [("id", pyStrip row.community ++ "-" ++ pyStrip row.lotJob),
             ("class", "notavailable")] none
            (process_geometry fit row.geometry default_color ++ [data_group cx cy])],
        textGroups := appendA (ensureCommunity s (pyStrip row.community)).textGroups
          (pyStrip row.community)
          (if 0 ≤ cx ∧ cx ≤ cw ∧ 0 ≤ cy ∧ cy ≤ ch then
            [labelElem false cx cy (pyStrip row.community) (pyStrip row.lotJob)
              (pyStrip row.legalLot)]
          else []) } ∧
    processRow true fit cw ch s row =
      { ensureCommunity s (pyStrip row.community) with
        planColorMap := (resolveFill true
          (ensureCommunity s (pyStrip row.community)).planColorMap
          (pyStrip row.plan)).1,
        lotGroups := appendA (ensureCommunity s (pyStrip row.community)).lotGroups
          (pyStrip row.community)
          [XML.elem "g"
            [("id", pyStrip row.community ++ "-" ++ pyStrip row.lotJob),
             ("class", "notavailable")] none
            (process_geometry fit row.geometry
              (resolveFill true
                (ensureCommunity s (pyStrip row.community)).planColorMap
                (pyStrip row.plan)).2)],
        textGroups := appendA (ensureCommunity s (pyStrip row.community)).textGroups
          (pyStrip row.community)
          (if 0 ≤ cx ∧ cx ≤ cw ∧ 0 ≤ cy ∧ cy ≤ ch then
            [labelElem true cx cy (pyStrip row.community) (pyStrip row.lotJob)
              (pyStrip row.legalLot)]
          else []) } ∧
    data_group cx cy = XML.elem "g" [] none
      [const_status_group cx cy, lot_premium_group cx cy, sold_status_group cx cy] ∧
    ((const_status_group cx cy).children.getD 0 xmlDefault).attr "cx" =
      some (ratStr (cx + 5)) ∧
    ((const_status_group cx cy).children.getD 0 xmlDefault).attr "cy" =
      some (ratStr cy) ∧
    ((lot_premium_group cx cy).children.getD 0 xmlDefault).attr "cx" =
      some (ratStr cx) ∧
    ((lot_premium_group cx cy).children.getD 0 xmlDefault).attr "cy" =
      some (ratStr (cy - 5)) ∧
    ((sold_status_group cx cy).children.getD 0 xmlDefault).attr "cx" =
      some (ratStr (cx - 5)) ∧
    ((sold_status_group cx cy).children.getD 0 xmlDefault).attr "cy" =
      some (ratStr cy) := by
  subst hcx hcy
  refine ⟨?_, ?_, rfl, rfl, rfl, rfl, rfl, rfl, rfl⟩
  · simpa using processRow_valid false fit cw ch s row h
  · simpa using processRow_valid true fit cw ch s row h

unseal Rat.mul Rat.sub Rat.add Rat.inv Rat.ofScientific in
/-- Witness for C1 (amended), at a valid lot with centroid projecting to
`(5, 5)`. -/
theorem markers_only_in_uncolorized_variant_witness :
    pyIsDigit (pyStrip "12") = true ∧
    (5 : ℚ) = (transform_coords 5 5 0 0 1 10 0 0).1 ∧
    (5 : ℚ) = (transform_coords 5 5 0 0 1 10 0 0).2 ∧
    (processRow false ⟨0, 0, 10, 1, 0, 0⟩ 1440 840 initLotsState
        ⟨"A", "12", "Lot 12", "Estate", "", "", "",
          Geometry.polygon [(0, 0), (10, 0), (10, 10), (0, 10), (0, 0)], (5, 5)⟩ =
      { ensureCommunity initLotsState (pyStrip "A") with
        planColorMap := (ensureCommunity initLotsState (pyStrip "A")).planColorMap,
        lotGroups := appendA
          (ensureCommunity initLotsState (pyStrip "A")).lotGroups (pyStrip "A")
          [XML.elem "g" [("id", pyStrip "A" ++ "-" ++ pyStrip "12"),
             ("class", "notavailable")] none
            (process_geometry ⟨0, 0, 10, 1, 0, 0⟩
              (Geometry.polygon [(0, 0), (10, 0), (10, 10), (0, 10), (0, 0)])
              default_color ++ [data_group 5 5])],
        textGroups := appendA
          (ensureCommunity initLotsState (pyStrip "A")).textGroups (pyStrip "A")
          (if 0 ≤ (5 : ℚ) ∧ (5 : ℚ) ≤ 1440 ∧ 0 ≤ (5 : ℚ) ∧ (5 : ℚ) ≤ 840 then
            [labelElem false 5 5 (pyStrip "A") (pyStrip "12") (pyStrip "Lot 12")]
          else []) } ∧
      processRow true ⟨0, 0, 10, 1, 0, 0⟩ 1440 840 initLotsState
        ⟨"A", "12", "Lot 12", "Estate", "", "", "",
          Geometry.polygon [(0, 0), (10, 0), (10, 10), (0, 10), (0, 0)], (5, 5)⟩ =
      { ensureCommunity initLotsState (pyStrip "A") with
        planColorMap := (resolveFill true
          (ensureCommunity initLotsState (pyStrip "A")).planColorMap
          (pyStrip "Estate")).1,
        lotGroups := appendA
          (ensureCommunity initLotsState (pyStrip "A")).lotGroups (pyStrip "A")
          [XML.elem "g" [("id", pyStrip "A" ++ "-" ++ pyStrip "12"),
             ("class", "notavailable")] none
            (process_geometry ⟨0, 0, 10, 1, 0, 0⟩
              (Geometry.polygon [(0, 0), (10, 0), (10, 10), (0, 10), (0, 0)])
              (resolveFill true
                (ensureCommunity initLotsState (pyStrip "A")).planColorMap
                (pyStrip "Estate")).2)],
        textGroups := appendA
          (ensureCommunity initLotsState (pyStrip "A")).textGroups (pyStrip "A")
          (if 0 ≤ (5 : ℚ) ∧ (5 : ℚ) ≤ 1440 ∧ 0 ≤ (5 : ℚ) ∧ (5 : ℚ) ≤ 840 then
            [labelElem true 5 5 (pyStrip "A") (pyStrip "12") (pyStrip "Lot 12")]
          else []) } ∧
      data_group 5 5 = XML.elem "g" [] none
        [const_status_group 5 5, lot_premium_group 5 5, sold_status_group 5 5] ∧
      ((const_status_group 5 5).children.getD 0 xmlDefault).attr "cx" =
        some (ratStr (5 + 5)) ∧
      ((const_status_group 5 5).children.getD 0 xmlDefault).attr "cy" =
        some (ratStr 5) ∧
      ((lot_premium_group 5 5).children.getD 0 xmlDefault).attr "cx" =
        some (ratStr 5) ∧
      ((lot_premium_group 5 5).children.getD 0 xmlDefault).attr "cy" =
        some (ratStr (5 - 5)) ∧
      ((sold_status_group 5 5).children.getD 0 xmlDefault).attr "cx" =
        some (ratStr (5 - 5)) ∧
      ((sold_status_group 5 5).children.getD 0 xmlDefault).attr "cy" =
        some (ratStr 5)) :=
  ⟨by decide, by decide, by decide,
    markers_only_in_uncolorized_variant ⟨0, 0, 10, 1, 0, 0⟩ 1440 840 5 5
      initLotsState
      ⟨"A", "12", "Lot 12", "Estate", "", "", "",
        Geometry.polygon [(0, 0), (10, 0), (10, 10), (0, 10), (0, 0)], (5, 5)⟩
      (by decide) (by decide) (by decide)⟩

unseal Rat.mul Rat.sub Rat.add Rat.inv Rat.ofScientific in
/-- C7 (code bug): the claimed behaviour — inset corner candidates,
point-in-polygon filtering, and up to three marker assignments in the
fixed class order — is the intent, and the candidate geometry is really
computed, but the program cannot perform the assignments.  On the
generator's own lot group (lot path followed by the attribute-less
marker data group, as produced for the C1 counterexample input) the
per-class lookup `g[@class=...]/circle` searches directly-nested
children only, so no circle is ever found and nothing is assigned, even
with every candidate surviving.  On a group whose class circle is
directly nested, the first assignment triggers the scene-sync loop
(svg_editor.py:322), which 2-unpacks the 6-tuples of `self.groups`
(appended at line 497) and raises ValueError whenever any marker group
is loaded — and a found circle implies `load_groups` loaded it.  Only
over an empty `self.groups` does the assignment complete, and then only
for directly-nested circles. -/
theorem auto_arrange_dots_never_assigns :
    (findClassCircle
        (XML.elem "g" [("id", "A-12"), ("class", "notavailable")] none
          (process_geometry ⟨0, 0, 10, 84, 300, 0⟩
            (Geometry.polygon [(0, 0), (10, 0), (10, 10), (0, 10), (0, 0)])
            default_color ++ [data_group 720 420]))
        "constStatus" = none ∧
      findClassCircle
        (XML.elem "g" [("id", "A-12"), ("class", "notavailable")] none
          (process_geometry ⟨0, 0, 10, 84, 300, 0⟩
            (Geometry.polygon [(0, 0), (10, 0), (10, 10), (0, 10), (0, 0)])
            default_color ++ [data_group 720 420]))
        "lotPremium" = none ∧
      findClassCircle
        (XML.elem "g" [("id", "A-12"), ("class", "notavailable")] none
          (process_geometry ⟨0, 0, 10, 84, 300, 0⟩
            (Geometry.polygon [(0, 0), (10, 0), (10, 10), (0, 10), (0, 0)])
            default_color ++ [data_group 720 420]))
        "soldStatus" = none) ∧
    auto_arrange_group (fun _ => true)
      [⟨⟨false, (725, 420)⟩,
        XML.elem "circle"
          [("fill", "#444445"), ("cx", "725"), ("cy", "420"), ("r", "4")] none [],
        none, none, none, none⟩]
      (XML.elem "g" [("id", "A-12"), ("class", "notavailable")] none
        (process_geometry ⟨0, 0, 10, 84, 300, 0⟩
          (Geometry.polygon [(0, 0), (10, 0), (10, 10), (0, 10), (0, 0)])
          default_color ++ [data_group 720 420]))
      [((0 : ℚ), (0 : ℚ)), (100, 0), (100, 100), (0, 100), (0, 0)] = .ok [] ∧
    auto_arrange_group (fun _ => true)
      [⟨⟨false, (725, 420)⟩,
        XML.elem "circle"
          [("fill", "#444445"), ("cx", "725"), ("cy", "420"), ("r", "4")] none [],
        none, none, none, none⟩]
      (XML.elem "g" [] none
        [XML.elem "g" [("class", "constStatus")] none
          [XML.elem "circle" [("cx", "0"), ("cy", "0"), ("r", "4")] none []]])
      [((0 : ℚ), (0 : ℚ)), (100, 0), (100, 100), (0, 100), (0, 0)] =
      .error "ValueError: too many values to unpack (expected 2)" ∧
    auto_arrange_group (fun _ => true) []
      (XML.elem "g" [] none
        [XML.elem "g" [("class", "constStatus")] none
          [XML.elem "circle" [("cx", "0"), ("cy", "0"), ("r", "4")] none []]])
      [((0 : ℚ), (0 : ℚ)), (100, 0), (100, 100), (0, 100), (0, 0)] =
      .ok [("constStatus", (10, 10))] :=
  ⟨⟨rfl, rfl, rfl⟩, rfl, rfl, rfl⟩

/-- A record and its scrubbed form are processed identically (the three
status attributes are read into unused locals and never consulted). -/
theorem processRow_scrub (colorize : Bool) (fit : Fit) (cw ch : ℚ)
    (s : LotsState) (r : LotRow) :
    processRow colorize fit cw ch s (scrub r) = processRow colorize fit cw ch s r := by
  cases r; rfl

/-- The whole conversion run is invariant under scrubbing the three
status attributes of every lot record. -/
theorem geojson_scrub (lots : Option (List LotRow))
    (grass water road : Option (List Geometry)) (base : String) (cw ch : ℚ) :
    geojson_to_svg (lots.map (List.map scrub)) grass water road base cw ch =
      geojson_to_svg lots grass water road base cw ch := by
  cases lots with
  | none => rfl
  | some rows =>
    have hgeom : ∀ r : LotRow, (scrub r).geometry = r.geometry := fun r => rfl
    have hfold : ∀ (colorize : Bool) (fit : Fit),
        (rows.map scrub).foldl (processRow colorize fit cw ch) initLotsState =
          rows.foldl (processRow colorize fit cw ch) initLotsState := by
      intro colorize fit
      rw [List.foldl_map]
      simp only [processRow_scrub]
    have hempty : (rows.map scrub).isEmpty = rows.isEmpty := by
      cases rows <;> rfl
    simp only [geojson_to_svg, Option.map_some', layerPresent, lotsCoords,
      populate_svg, process_lots, hempty, List.map_map, Option.getD_some]
    simp only [hfold, Function.comp_def, hgeom]

/-- C10: the generated print and digital documents are independent of
every record's premium, sold-status and construction-status attributes
(the source reads them into unused locals): two runs whose lot records
differ only in those three attributes produce identical outputs, and the
marker label texts are the fixed constants `"300"` and `"10k"` for every
anchor, regardless of the attributes. -/
theorem output_independent_of_status_attrs (lots₁ lots₂ : Option (List LotRow))
    (grass water road : Option (List Geometry)) (base : String) (cw ch cx cy : ℚ)
    (h : lots₁.map (List.map scrub) = lots₂.map (List.map scrub)) :
    geojson_to_svg lots₁ grass water road base cw ch =
      geojson_to_svg lots₂ grass water road base cw ch ∧
    ((const_status_group cx cy).children.getD 1 xmlDefault).textContent =
      some "300" ∧
    ((lot_premium_group cx cy).children.getD 2 xmlDefault).textContent =
      some "10k" := by
  refine ⟨?_, rfl, rfl⟩
  rw [← geojson_scrub lots₁ grass water road base cw ch, h,
    geojson_scrub lots₂ grass water road base cw ch]

/-- Witness for C10: two single-lot runs that differ only in the
premium/sold/construction attributes. -/
theorem output_independent_of_status_attrs_witness :
    ((some [(⟨"A", "12", "Lot 12", "Estate", "Premium 10k", "Sold", "300",
        Geometry.polygon [(0, 0), (10, 0), (10, 10), (0, 10), (0, 0)],
        (5, 5)⟩ : LotRow)]).map (List.map scrub) =
      (some [(⟨"A", "12", "Lot 12", "Estate", "", "", "",
        Geometry.polygon [(0, 0), (10, 0), (10, 10), (0, 10), (0, 0)],
        (5, 5)⟩ : LotRow)]).map (List.map scrub)) ∧
    (geojson_to_svg
        (some [⟨"A", "12", "Lot 12", "Estate", "Premium 10k", "Sold", "300",
          Geometry.polygon [(0, 0), (10, 0), (10, 10), (0, 10), (0, 0)], (5, 5)⟩])
        none none none "o" 1440 840 =
      geojson_to_svg
        (some [⟨"A", "12", "Lot 12", "Estate", "", "", "",
          Geometry.polygon [(0, 0), (10, 0), (10, 10), (0, 10), (0, 0)], (5, 5)⟩])
        none none none "o" 1440 840 ∧
      ((const_status_group 1 2).children.getD 1 xmlDefault).textContent =
        some "300" ∧
      ((lot_premium_group 1 2).children.getD 2 xmlDefault).textContent =
        some "10k") :=
  ⟨rfl,
    output_independent_of_status_attrs
      (some [⟨"A", "12", "Lot 12", "Estate", "Premium 10k", "Sold", "300",
        Geometry.polygon [(0, 0), (10, 0), (10, 10), (0, 10), (0, 0)], (5, 5)⟩])
      (some [⟨"A", "12", "Lot 12", "Estate", "", "", "",
        Geometry.polygon [(0, 0), (10, 0), (10, 10), (0, 10), (0, 0)], (5, 5)⟩])
      none none none "o" 1440 840 1 2 rfl⟩

/-! ## Plan-colour map lemmas (C4) -/

theorem lookup_append_some {β : Type} (l₁ l₂ : List (String × β)) (key : String)
    (v : β) (h : List.lookup key l₁ = some v) :
    List.lookup key (l₁ ++ l₂) = some v := by
  induction l₁ with
  | nil => simp at h
  | cons e rest ih =>
    obtain ⟨a, b⟩ := e
    rw [List.lookup_cons] at h
    show List.lookup key ((a, b) :: (rest ++ l₂)) = some v
    rw [List.lookup_cons]
    cases hk : (key == a) with
    | true => rw [hk] at h; simpa [hk] using h
    | false => rw [hk] at h; simpa [hk] using ih h

theorem lookup_append_none {β : Type} (l₁ l₂ : List (String × β)) (key : String)
    (h : List.lookup key l₁ = none) :
    List.lookup key (l₁ ++ l₂) = List.lookup key l₂ := by
  induction l₁ with
  | nil => simp
  | cons e rest ih =>
    obtain ⟨a, b⟩ := e
    rw [List.lookup_cons] at h
    show List.lookup key ((a, b) :: (rest ++ l₂)) = List.lookup key l₂
    rw [List.lookup_cons]
    cases hk : (key == a) with
    | true => rw [hk] at h; simp at h
    | false => rw [hk] at h; simpa [hk] using ih h

theorem colorTable_length (k : Nat) (D : List String) :
    (colorTable k D).length = D.length := by
  induction D generalizing k with
  | nil => rfl
  | cons p ps ih => simp [colorTable, ih]

theorem colorTable_append_singleton (k : Nat) (D : List String) (p : String) :
    colorTable k (D ++ [p]) = colorTable k D ++ [(p, planColorAt (k + D.length))] := by
  induction D generalizing k with
  | nil => simp [colorTable]
  | cons q qs ih =>
    rw [show (q :: qs) ++ [p] = q :: (qs ++ [p]) from rfl,
      show colorTable k (q :: (qs ++ [p])) =
        (q, planColorAt k) :: colorTable (k + 1) (qs ++ [p]) from rfl,
      show colorTable k (q :: qs) =
        (q, planColorAt k) :: colorTable (k + 1) qs from rfl,
      ih, show k + 1 + qs.length = k + (qs.length + 1) from by omega,
      List.length_cons]
    rfl

theorem lookup_colorTable_not_mem (k : Nat) (D : List String) (p : String)
    (h : p ∉ D) : List.lookup p (colorTable k D) = none := by
  induction D generalizing k with
  | nil => rfl
  | cons q qs ih =>
    rw [colorTable, List.lookup_cons]
    have hpq : p ≠ q := fun e => h (e ▸ List.mem_cons_self q qs)
    have : (p == q) = false := beq_false_of_ne hpq
    rw [this]
    exact ih (k + 1) (fun hm => h (List.mem_cons_of_mem _ hm))

theorem lookup_colorTable_get (k : Nat) (D : List String) (n : Nat)
    (hn : n < D.length) (hd : D.Nodup) :
    List.lookup (D.get ⟨n, hn⟩) (colorTable k D) = some (planColorAt (k + n)) := by
  induction D generalizing k n with
  | nil => simp at hn
  | cons q qs ih =>
    cases n with
    | zero =>
      have he : (q :: qs).get ⟨0, hn⟩ = q := rfl
      rw [he, colorTable, List.lookup_cons, beq_self_eq_true]
      rfl
    | succ m =>
      have hm : m < qs.length := Nat.lt_of_succ_lt_succ hn
      have he : (q :: qs).get ⟨m + 1, hn⟩ = qs.get ⟨m, hm⟩ := rfl
      have hq : qs.get ⟨m, hm⟩ ≠ q := by
        intro e
        have : q ∈ qs := e ▸ List.get_mem qs m hm
        exact (List.nodup_cons.mp hd).1 this
      rw [he, colorTable, List.lookup_cons, beq_false_of_ne hq]
      have h2 := ih (k + 1) m hm (List.nodup_cons.mp hd).2
      rw [h2]
      have : k + 1 + m = k + (m + 1) := by omega
      rw [this]

theorem lookup_colorTable_mem (k : Nat) (D : List String) (p : String)
    (h : p ∈ D) : (List.lookup p (colorTable k D)).isSome = true := by
  induction D generalizing k with
  | nil => simp at h
  | cons q qs ih =>
    rw [colorTable, List.lookup_cons]
    cases hpq : (p == q) with
    | true => simp
    | false =>
      have hm : p ∈ qs := by
        rcases List.mem_cons.mp h with h1 | h1
        · rw [h1, beq_self_eq_true] at hpq; simp at hpq
        · exact h1
      simpa using ih (k + 1) hm

theorem ensureCommunity_planColorMap (s : LotsState) (c : String) :
    (ensureCommunity s c).planColorMap = s.planColorMap := by
  unfold ensureCommunity
  split <;> rfl

theorem processRow_planColorMap_valid (fit : Fit) (cw ch : ℚ) (s : LotsState)
    (row : LotRow) (h : pyIsDigit (pyStrip row.lotJob) = true) :
    (processRow true fit cw ch s row).planColorMap =
      (resolveFill true s.planColorMap (pyStrip row.plan)).1 := by
  rw [processRow_valid true fit cw ch s row h]
  simp [ensureCommunity_planColorMap]

theorem planSeen_invalid (D : List String) (r : LotRow)
    (hv : pyIsDigit (pyStrip r.lotJob) = false) : planSeen D r = D := by
  unfold planSeen
  rw [if_neg (by simp [hv])]

theorem planSeen_valid (D : List String) (r : LotRow)
    (hv : pyIsDigit (pyStrip r.lotJob) = true) :
    planSeen D r =
      if (pyStrip r.plan) ∉ D ∧ (pyStrip r.plan) ≠ "" then D ++ [pyStrip r.plan]
      else D := by
  unfold planSeen
  rw [if_pos hv]

theorem resolveFill_map (m : List (String × String)) (p : String) :
    (resolveFill true m p).1 =
      if (List.lookup p m).isNone && p != "" then m ++ [(p, planColorAt m.length)]
      else m := rfl

theorem planSeen_foldl_nodup (rows : List LotRow) :
    ∀ D : List String, D.Nodup → (rows.foldl planSeen D).Nodup := by
  induction rows with
  | nil => exact fun D h => h
  | cons r rest ih =>
    intro D hD
    rw [List.foldl_cons]
    refine ih _ ?_
    cases hv : pyIsDigit (pyStrip r.lotJob) with
    | false => rw [planSeen_invalid D r hv]; exact hD
    | true =>
      rw [planSeen_valid D r hv]
      by_cases hc : (pyStrip r.plan) ∉ D ∧ (pyStrip r.plan) ≠ ""
      · rw [if_pos hc]
        refine List.nodup_append.mpr ⟨hD, List.nodup_singleton _, ?_⟩
        intro a ha hb
        rw [List.mem_singleton] at hb
        exact hc.1 (hb ▸ ha)
      · rw [if_neg hc]; exact hD

theorem planSeen_foldl_no_empty (rows : List LotRow) :
    ∀ D : List String, "" ∉ D → "" ∉ rows.foldl planSeen D := by
  induction rows with
  | nil => exact fun D h => h
  | cons r rest ih =>
    intro D hD
    rw [List.foldl_cons]
    refine ih _ ?_
    cases hv : pyIsDigit (pyStrip r.lotJob) with
    | false => rw [planSeen_invalid D r hv]; exact hD
    | true =>
      rw [planSeen_valid D r hv]
      by_cases hc : (pyStrip r.plan) ∉ D ∧ (pyStrip r.plan) ≠ ""
      · rw [if_pos hc]
        intro hm
        rcases List.mem_append.mp hm with h1 | h1
        · exact hD h1
        · rw [List.mem_singleton] at h1
          exact hc.2 h1.symm
      · rw [if_neg hc]; exact hD

theorem planMap_colorTable (fit : Fit) (cw ch : ℚ) (rows : List LotRow) :
    ∀ (s : LotsState) (D : List String), s.planColorMap = colorTable 0 D →
      (rows.foldl (processRow true fit cw ch) s).planColorMap =
        colorTable 0 (rows.foldl planSeen D) := by
  induction rows with
  | nil => intro s D h; simpa using h
  | cons r rest ih =>
    intro s D h
    rw [List.foldl_cons, List.foldl_cons]
    cases hv : pyIsDigit (pyStrip r.lotJob) with
    | false =>
      apply ih
      rw [processRow_invalid true fit cw ch s r hv, planSeen_invalid D r hv]
      exact h
    | true =>
      apply ih
      rw [processRow_planColorMap_valid fit cw ch s r hv, h, resolveFill_map,
        planSeen_valid D r hv]
      by_cases hmem : (pyStrip r.plan) ∈ D
      · have h1 : ((List.lookup (pyStrip r.plan) (colorTable 0 D)).isNone &&
            (pyStrip r.plan) != "") = false := by
          have hs := lookup_colorTable_mem 0 D _ hmem
          cases hl : List.lookup (pyStrip r.plan) (colorTable 0 D) with
          | none => rw [hl] at hs; simp at hs
          | some v => simp [hl]
        rw [if_neg (by simp [h1]), if_neg (fun hc => hc.1 hmem)]
      · by_cases hne : (pyStrip r.plan) = ""
        · have h1 : ((List.lookup (pyStrip r.plan) (colorTable 0 D)).isNone &&
              (pyStrip r.plan) != "") = false := by simp [hne]
          rw [if_neg (by simp [h1]), if_neg (fun hc => hc.2 hne)]
        · have h0 : List.lookup (pyStrip r.plan) (colorTable 0 D) = none :=
            lookup_colorTable_not_mem 0 D _ hmem
          have h1 : ((List.lookup (pyStrip r.plan) (colorTable 0 D)).isNone &&
              (pyStrip r.plan) != "") = true := by simp [h0, hne]
          rw [if_pos h1, if_pos ⟨hmem, hne⟩, colorTable_length,
            colorTable_append_singleton, Nat.zero_add]

theorem planMap_lookup_mono (fit : Fit) (cw ch : ℚ) (rows : List LotRow) :
    ∀ (s : LotsState) (key : String) (v : String),
      List.lookup key s.planColorMap = some v →
      List.lookup key ((rows.foldl (processRow true fit cw ch) s)).planColorMap =
        some v := by
  induction rows with
  | nil => intro s key v h; exact h
  | cons r rest ih =>
    intro s key v h
    rw [List.foldl_cons]
    apply ih
    cases hv : pyIsDigit (pyStrip r.lotJob) with
    | false =>
      rw [processRow_invalid true fit cw ch s r hv]
      exact h
    | true =>
      rw [processRow_planColorMap_valid fit cw ch s r hv]
      unfold resolveFill
      rw [if_pos rfl]
      split
      · exact lookup_append_some _ _ _ _ h
      · exact h

theorem lotsStateAt_succ (fit : Fit) (cw ch : ℚ) (rows : List LotRow) (i : Nat)
    (r : LotRow) (hi : rows.get? i = some r) :
    lotsStateAt fit cw ch rows (i + 1) =
      processRow true fit cw ch (lotsStateAt fit cw ch rows i) r := by
  have hi' : rows[i]? = some r := by
    rw [← List.get?_eq_getElem?]
    exact hi
  unfold lotsStateAt
  rw [List.take_succ, hi', List.foldl_append]
  rfl

theorem lotsStateAt_final (fit : Fit) (cw ch : ℚ) (rows : List LotRow) (n : Nat) :
    lotsStateAt fit cw ch rows rows.length =
      (rows.drop n).foldl (processRow true fit cw ch)
        (lotsStateAt fit cw ch rows n) := by
  unfold lotsStateAt
  rw [List.take_length, ← List.foldl_append, List.take_append_drop]

theorem rowFillAt_valid_eq (fit : Fit) (cw ch : ℚ) (rows : List LotRow) (i : Nat)
    (r : LotRow) (hi : rows.get? i = some r)
    (hv : pyIsDigit (pyStrip r.lotJob) = true) :
    rowFillAt fit cw ch rows i =
      some ((List.lookup (pyStrip r.plan)
        (lotsStateAt fit cw ch rows (i + 1)).planColorMap).getD default_color) := by
  unfold rowFillAt
  rw [hi]
  simp only [Option.map_some']
  rw [ensureCommunity_planColorMap, lotsStateAt_succ fit cw ch rows i r hi,
    processRow_planColorMap_valid fit cw ch _ r hv]
  rfl

theorem lotsStateAt_map_succ_valid (fit : Fit) (cw ch : ℚ) (rows : List LotRow)
    (i : Nat) (r : LotRow) (hi : rows.get? i = some r)
    (hv : pyIsDigit (pyStrip r.lotJob) = true) :
    (lotsStateAt fit cw ch rows (i + 1)).planColorMap =
      (resolveFill true (lotsStateAt fit cw ch rows i).planColorMap
        (pyStrip r.plan)).1 := by
  rw [lotsStateAt_succ fit cw ch rows i r hi,
    processRow_planColorMap_valid fit cw ch _ r hv]

theorem resolveFill_lookup_isSome (m : List (String × String)) (p : String)
    (hp : p ≠ "") : (List.lookup p (resolveFill true m p).1).isSome = true := by
  rw [resolveFill_map]
  cases hl : List.lookup p m with
  | some v =>
    rw [if_neg (by simp [hl])]
    simp [hl]
  | none =>
    rw [if_pos (by simp [hl, hp]), lookup_append_none _ _ _ hl,
      List.lookup_cons, beq_self_eq_true]
    rfl

/-- C4: with colorization enabled, plan-colour assignment is
deterministic in first-seen order: after the full pass over the records
the plan-colour map pairs the first-seen distinct non-empty plan names
of the valid records with the fixed six-colour palette in order, the
`n`-th distinct name (0-indexed) mapping to palette colour `n % 6`; any
two valid records sharing one non-empty plan name resolve the same fill
colour; and a valid record with an empty plan name resolves the fixed
default colour. -/
theorem plan_color_first_seen_order (fit : Fit) (cw ch : ℚ) (rows : List LotRow)
    (n i j k : Nat) (ri rj rk : LotRow)
    (hn : n < (distinctPlans rows).length)
    (hi : rows.get? i = some ri) (hvi : pyIsDigit (pyStrip ri.lotJob) = true)
    (hpi : pyStrip ri.plan ≠ "")
    (hj : rows.get? j = some rj) (hvj : pyIsDigit (pyStrip rj.lotJob) = true)
    (hpj : pyStrip rj.plan ≠ "")
    (hij : pyStrip ri.plan = pyStrip rj.plan)
    (hk : rows.get? k = some rk) (hvk : pyIsDigit (pyStrip rk.lotJob) = true)
    (hpk : pyStrip rk.plan = "") :
    (lotsStateAt fit cw ch rows rows.length).planColorMap =
      colorTable 0 (distinctPlans rows) ∧
    List.lookup ((distinctPlans rows).get ⟨n, hn⟩)
      (lotsStateAt fit cw ch rows rows.length).planColorMap =
      some (planColorAt n) ∧
    rowFillAt fit cw ch rows i = rowFillAt fit cw ch rows j ∧
    rowFillAt fit cw ch rows k = some default_color := by
  have hfinal : (lotsStateAt fit cw ch rows rows.length).planColorMap =
      colorTable 0 (distinctPlans rows) := by
    unfold lotsStateAt
    rw [List.take_length]
    exact planMap_colorTable fit cw ch rows initLotsState [] rfl
  have hnodup : (distinctPlans rows).Nodup :=
    planSeen_foldl_nodup rows [] List.nodup_nil
  refine ⟨hfinal, ?_, ?_, ?_⟩
  · rw [hfinal]
    have := lookup_colorTable_get 0 (distinctPlans rows) n hn hnodup
    rwa [Nat.zero_add] at this
  · -- same non-empty plan ⟹ same resolved fill
    have hsome_i : (List.lookup (pyStrip ri.plan)
        (lotsStateAt fit cw ch rows (i + 1)).planColorMap).isSome = true := by
      rw [lotsStateAt_map_succ_valid fit cw ch rows i ri hi hvi]
      exact resolveFill_lookup_isSome _ _ hpi
    have hsome_j : (List.lookup (pyStrip rj.plan)
        (lotsStateAt fit cw ch rows (j + 1)).planColorMap).isSome = true := by
      rw [lotsStateAt_map_succ_valid fit cw ch rows j rj hj hvj]
      exact resolveFill_lookup_isSome _ _ hpj
    obtain ⟨ci, hci⟩ := Option.isSome_iff_exists.mp hsome_i
    obtain ⟨cj, hcj⟩ := Option.isSome_iff_exists.mp hsome_j
    have hfin_i : List.lookup (pyStrip ri.plan)
        (lotsStateAt fit cw ch rows rows.length).planColorMap = some ci := by
      rw [lotsStateAt_final fit cw ch rows (i + 1)]
      exact planMap_lookup_mono fit cw ch (rows.drop (i + 1)) _ _ _ hci
    have hfin_j : List.lookup (pyStrip rj.plan)
        (lotsStateAt fit cw ch rows rows.length).planColorMap = some cj := by
      rw [lotsStateAt_final fit cw ch rows (j + 1)]
      exact planMap_lookup_mono fit cw ch (rows.drop (j + 1)) _ _ _ hcj
    have hcc : ci = cj := by
      rw [hij] at hfin_i
      exact Option.some.inj (hfin_i.symm.trans hfin_j)
    rw [rowFillAt_valid_eq fit cw ch rows i ri hi hvi,
      rowFillAt_valid_eq fit cw ch rows j rj hj hvj, hci, hcj, hcc]
  · rw [rowFillAt_valid_eq fit cw ch rows k rk hk hvk, hpk]
    have hmap : (lotsStateAt fit cw ch rows (k + 1)).planColorMap =
        colorTable 0 ((rows.take (k + 1)).foldl planSeen []) :=
      planMap_colorTable fit cw ch (rows.take (k + 1)) initLotsState [] rfl
    have hne : "" ∉ (rows.take (k + 1)).foldl planSeen [] :=
      planSeen_foldl_no_empty _ [] (by simp)
    rw [hmap, lookup_colorTable_not_mem 0 _ "" hne]
    rfl

/-- Witness for C4: three valid lots — two sharing plan `"Estate"`, one
with an empty plan. -/
theorem plan_color_first_seen_order_witness :
    (0 < (distinctPlans
      [⟨"A", "1", "", "Estate", "", "", "", Geometry.empty, (0, 0)⟩,
       ⟨"A", "2", "", "Estate", "", "", "", Geometry.empty, (0, 0)⟩,
       ⟨"A", "3", "", "", "", "", "", Geometry.empty, (0, 0)⟩]).length) ∧
    pyIsDigit (pyStrip "1") = true ∧ pyStrip "Estate" ≠ "" ∧
    pyIsDigit (pyStrip "2") = true ∧ pyIsDigit (pyStrip "3") = true ∧
    pyStrip "" = "" ∧
    ((lotsStateAt ⟨0, 0, 10, 1, 0, 0⟩ 1440 840
        [⟨"A", "1", "", "Estate", "", "", "", Geometry.empty, (0, 0)⟩,
         ⟨"A", "2", "", "Estate", "", "", "", Geometry.empty, (0, 0)⟩,
         ⟨"A", "3", "", "", "", "", "", Geometry.empty, (0, 0)⟩]
        (List.length
          [(⟨"A", "1", "", "Estate", "", "", "", Geometry.empty, (0, 0)⟩ : LotRow),
           ⟨"A", "2", "", "Estate", "", "", "", Geometry.empty, (0, 0)⟩,
           ⟨"A", "3", "", "", "", "", "", Geometry.empty, (0, 0)⟩])).planColorMap =
      colorTable 0 (distinctPlans
        [⟨"A", "1", "", "Estate", "", "", "", Geometry.empty, (0, 0)⟩,
         ⟨"A", "2", "", "Estate", "", "", "", Geometry.empty, (0, 0)⟩,
         ⟨"A", "3", "", "", "", "", "", Geometry.empty, (0, 0)⟩]) ∧
      List.lookup ((distinctPlans
          [⟨"A", "1", "", "Estate", "", "", "", Geometry.empty, (0, 0)⟩,
           ⟨"A", "2", "", "Estate", "", "", "", Geometry.empty, (0, 0)⟩,
           ⟨"A", "3", "", "", "", "", "", Geometry.empty, (0, 0)⟩]).get
          ⟨0, by decide⟩)
        (lotsStateAt ⟨0, 0, 10, 1, 0, 0⟩ 1440 840
          [⟨"A", "1", "", "Estate", "", "", "", Geometry.empty, (0, 0)⟩,
           ⟨"A", "2", "", "Estate", "", "", "", Geometry.empty, (0, 0)⟩,
           ⟨"A", "3", "", "", "", "", "", Geometry.empty, (0, 0)⟩]
          (List.length
            [(⟨"A", "1", "", "Estate", "", "", "", Geometry.empty, (0, 0)⟩ : LotRow),
             ⟨"A", "2", "", "Estate", "", "", "", Geometry.empty, (0, 0)⟩,
             ⟨"A", "3", "", "", "", "", "", Geometry.empty,
               (0, 0)⟩])).planColorMap =
        some (planColorAt 0) ∧
      rowFillAt ⟨0, 0, 10, 1, 0, 0⟩ 1440 840
        [⟨"A", "1", "", "Estate", "", "", "", Geometry.empty, (0, 0)⟩,
         ⟨"A", "2", "", "Estate", "", "", "", Geometry.empty, (0, 0)⟩,
         ⟨"A", "3", "", "", "", "", "", Geometry.empty, (0, 0)⟩] 0 =
      rowFillAt ⟨0, 0, 10, 1, 0, 0⟩ 1440 840
        [⟨"A", "1", "", "Estate", "", "", "", Geometry.empty, (0, 0)⟩,
         ⟨"A", "2", "", "Estate", "", "", "", Geometry.empty, (0, 0)⟩,
         ⟨"A", "3", "", "", "", "", "", Geometry.empty, (0, 0)⟩] 1 ∧
      rowFillAt ⟨0, 0, 10, 1, 0, 0⟩ 1440 840
        [⟨"A", "1", "", "Estate", "", "", "", Geometry.empty, (0, 0)⟩,
         ⟨"A", "2", "", "Estate", "", "", "", Geometry.empty, (0, 0)⟩,
         ⟨"A", "3", "", "", "", "", "", Geometry.empty, (0, 0)⟩] 2 =
      some default_color) :=
  ⟨by decide, by decide, by decide, by decide, by decide, rfl,
    plan_color_first_seen_order ⟨0, 0, 10, 1, 0, 0⟩ 1440 840
      [⟨"A", "1", "", "Estate", "", "", "", Geometry.empty, (0, 0)⟩,
       ⟨"A", "2", "", "Estate", "", "", "", Geometry.empty, (0, 0)⟩,
       ⟨"A", "3", "", "", "", "", "", Geometry.empty, (0, 0)⟩]
      0 0 1 2
      ⟨"A", "1", "", "Estate", "", "", "", Geometry.empty, (0, 0)⟩
      ⟨"A", "2", "", "Estate", "", "", "", Geometry.empty, (0, 0)⟩
      ⟨"A", "3", "", "", "", "", "", Geometry.empty, (0, 0)⟩
      (by decide) rfl (by decide) (by decide) rfl (by decide) (by decide) rfl
      rfl (by decide) rfl⟩

end Platmap












